import Mathlib

/-!
Verification development for the skin-lesion severity scoring and heatmap
pipeline of `src/back/src/detection/score.py`.

Python floats are embedded as rationals (`ℚ`): every arithmetic operation the
scoring code performs (addition, multiplication, division, `min`, `max`) is
exact on the inputs considered here, so the rational model matches the source
expression-for-expression.  External collaborators (the YOLO detector, scipy's
`gaussian_filter`, OpenCV's blur/colormap/blend) are passed in as function
parameters; OpenCV's `normalize(..., NORM_MINMAX, CV_8U)` is modelled
concretely from its documented semantics because the normalization decision is
part of the repository's own logic.
-/

namespace SkinScore

/-- One detection box, as consumed from `box.xyxy[0]`, `box.cls[0]`,
`box.conf[0]` in `score.py`: corner coordinates, class id, confidence. -/
structure Box where
  x1 : ℚ
  y1 : ℚ
  x2 : ℚ
  y2 : ℚ
  cls : Nat
  conf : ℚ
deriving DecidableEq

/-- One element of the detector's result list (`detection_results[i]`):
its `.boxes` attribute (which may be `None`) and its `.names` table. -/
structure DetResult where
  boxes : Option (List Box)
  names : List (Nat × String)
deriving DecidableEq

/-- `names.get(class_id, f"class_{class_id}")` from `score.py`. -/
def lookupName (names : List (Nat × String)) (id : Nat) : String :=
  match names.lookup id with
  | some n => n
  | none => "class_" ++ toString id

/-- `severity_map.get(class_name, default_s_i)`. -/
def severityGet (m : List (String × ℚ)) (k : String) (d : ℚ) : ℚ :=
  match m.lookup k with
  | some v => v
  | none => d

/-- The severity weight resolved for one box:
`severity_map.get(names.get(int(box.cls[0]), ...), default_s_i)`. -/
def resolveSeverity (names : List (Nat × String)) (m : List (String × ℚ))
    (d : ℚ) (b : Box) : ℚ :=
  severityGet m (lookupName names b.cls) d

/-- `w = x2 - x1; h = y2 - y1; if w <= 0 or h <= 0: continue` —
a box is kept by the loop exactly when both are positive. -/
def usable (b : Box) : Bool :=
  decide (0 < b.x2 - b.x1) && decide (0 < b.y2 - b.y1)

/-- `a_i = float(w * h)`. -/
def boxArea (b : Box) : ℚ := (b.x2 - b.x1) * (b.y2 - b.y1)

/-- `max(severity_map.values()) if severity_map else default_s_i`. -/
def dictValuesMax (m : List (String × ℚ)) (d : ℚ) : ℚ :=
  match m.map Prod.snd with
  | [] => d
  | v :: vs => vs.foldl max v

/-- `if max_possible_avg_intensity <= 0: max_possible_avg_intensity = 5.0`. -/
def effectiveMaxSeverity (m : List (String × ℚ)) (d : ℚ) : ℚ :=
  if dictValuesMax m d ≤ 0 then 5 else dictValuesMax m d

/-- One iteration of the accumulation loop over `boxes` in
`calculate_facial_severity_v2` (lines 116-124): skip non-usable boxes,
otherwise add the box area, the resolved severity and one valid detection. -/
def scoreStep (names : List (Nat × String)) (m : List (String × ℚ)) (d : ℚ)
    (acc : ℚ × ℚ × Nat) (b : Box) : ℚ × ℚ × Nat :=
  if usable b then
    (acc.1 + boxArea b, acc.2.1 + resolveSeverity names m d b, acc.2.2 + 1)
  else acc

/-- The whole accumulation loop: returns
`(total_lesion_area, sum_severity_points, valid_detections)`. -/
def scoreLoop (names : List (Nat × String)) (m : List (String × ℚ)) (d : ℚ)
    (bs : List Box) : ℚ × ℚ × Nat :=
  bs.foldl (scoreStep names m d) (0, 0, 0)

/-- `calculate_facial_severity_v2` from `score.py` (lines 99-140), returning
`(final_score, percentage_affected_area, average_intensity, N)`.
The per-box `except (AttributeError, IndexError, TypeError)` arms guard
against malformed Python objects, which the typed embedding cannot produce;
apart from that the branch structure follows the source line by line. -/
def calculate_facial_severity_v2 (detection_results : List DetResult)
    (image_shape : List Nat) (severity_map : List (String × ℚ))
    (default_s_i : ℚ) (score_range : ℚ × ℚ)
    (area_weight intensity_weight : ℚ) : ℚ × ℚ × ℚ × Nat :=
  match detection_results with
  | [] => (score_range.1, 0, 0, 0)
  | result :: _ =>
    if image_shape.length < 2 then (score_range.1, 0, 0, 0)
    else
      let img_h := image_shape.getD 0 0
      let img_w := image_shape.getD 1 0
      let total_image_area : ℚ := (img_h : ℚ) * (img_w : ℚ)
      match result.boxes with
      | none => (score_range.1, 0, 0, 0)
      | some bs =>
        if bs.length = 0 ∨ total_image_area ≤ 0 then (score_range.1, 0, 0, 0)
        else
          let acc := scoreLoop result.names severity_map default_s_i bs
          if acc.2.2 = 0 then (score_range.1, 0, 0, 0)
          else
            let percentage_affected_area := acc.1 / total_image_area * 100
            let average_intensity := acc.2.1 / (acc.2.2 : ℚ)
            let max_expected_area_percent : ℚ := 50
            let scaled_area_component :=
              min 1 (percentage_affected_area / max_expected_area_percent) *
                (score_range.2 - score_range.1)
            let scaled_intensity_component :=
              min 1 (average_intensity / effectiveMaxSeverity severity_map default_s_i) *
                (score_range.2 - score_range.1)
            let final0 := area_weight * scaled_area_component +
              intensity_weight * scaled_intensity_component + score_range.1
            (max score_range.1 (min score_range.2 final0),
             percentage_affected_area, average_intensity, acc.2.2)

/-- `SEVERITY_SCORE_MAP` module constant of `score.py`. -/
def SEVERITY_SCORE_MAP : List (String × ℚ) :=
  [("Acne", 5), ("Pigmentation", 4), ("Blackheads", 2),
   ("Excess sebum", 2), ("Enlarged Pores", 1)]

/-- `DEFAULT_SEVERITY_SCORE`. -/
def DEFAULT_SEVERITY_SCORE : ℚ := 1

/-- `AREA_WEIGHT`. -/
def AREA_WEIGHT : ℚ := 3 / 10

/-- `INTENSITY_WEIGHT`. -/
def INTENSITY_WEIGHT : ℚ := 6 / 10

/-- `SCORE_RANGE`. -/
def SCORE_RANGE : ℚ × ℚ := (0, 100)

/-- A numpy pixel buffer: its `.shape` and its (flattened, row-major)
entries. Only the shape matters to the properties proved here; the entries
make the buffer a concrete value that can be returned unchanged. -/
structure NpImage where
  shape : List Nat
  data : List ℚ
deriving DecidableEq

/-- A 2-D (or lower) float field such as `heatmap_raw`, flattened
row-major. -/
structure NDField where
  shape : List Nat
  data : List ℚ
deriving DecidableEq

/-- `np.zeros(shape, dtype=...)`. -/
def zerosOf (shape : List Nat) : NDField :=
  ⟨shape, List.replicate (shape.foldl (fun a b => a * b) 1) 0⟩

/-- Python `int(...)` applied to a float: truncation toward zero. -/
def pyInt (q : ℚ) : Int := if 0 ≤ q then ⌊q⌋ else ⌈q⌉

/-- `cx = max(0, min(img_w - 1, int((x1 + x2) / 2)))`, as an index into the
row-major field (the final `toNat` is the embedding of a nonnegative Python
int used as an index). -/
def centerX (b : Box) (w : Nat) : Nat :=
  (max 0 (min ((w : Int) - 1) (pyInt ((b.x1 + b.x2) / 2)))).toNat

/-- `cy = max(0, min(img_h - 1, int((y1 + y2) / 2)))`. -/
def centerY (b : Box) (h : Nat) : Nat :=
  (max 0 (min ((h : Int) - 1) (pyInt ((b.y1 + b.y2) / 2)))).toNat

/-- The per-detection weight of `generate_spread_heatmap` (lines 68-75):
1.0 by default, the resolved severity under `"severity"` weighting, the
confidence under `"confidence"` weighting. -/
def pointWeight (names : List (Nat × String)) (m : List (String × ℚ))
    (d : ℚ) (weighting : String) (b : Box) : ℚ :=
  if weighting = "severity" then resolveSeverity names m d b
  else if weighting = "confidence" then b.conf
  else 1

/-- `points_data` (lines 62-78): clamped center plus weight, keeping only
points with weight > 0, in list order. -/
def pointsData (names : List (Nat × String)) (m : List (String × ℚ))
    (d : ℚ) (weighting : String) (h w : Nat) (bs : List Box) :
    List (Nat × Nat × ℚ) :=
  bs.filterMap (fun b =>
    let cx := centerX b w
    let cy := centerY b h
    let pw := pointWeight names m d weighting b
    if 0 < pw then some (cy, cx, pw) else none)

/-- `heatmap_raw[y, x] += weight` on the flattened field. -/
def addAt (f : NDField) (i : Nat) (v : ℚ) : NDField :=
  ⟨f.shape, f.data.set i (f.data.getD i 0 + v)⟩

/-- Line 81: the accumulation of all point masses into an `h×w` zero
field. -/
def accumulatePoints (h w : Nat) (ps : List (Nat × Nat × ℚ)) : NDField :=
  ps.foldl (fun f p => addAt f (p.1 * w + p.2.1) p.2.2) (zerosOf [h, w])

/-- `np.max` over the field entries (0 on an empty buffer). -/
def listMax : List ℚ → ℚ
  | [] => 0
  | x :: xs => xs.foldl max x

/-- `np.min` counterpart, used by min-max normalization. -/
def listMin : List ℚ → ℚ
  | [] => 0
  | x :: xs => xs.foldl min x

/-- C's `DBL_EPSILON` = 2^-52, the guard OpenCV's NORM_MINMAX scaling uses
against a constant field. -/
def dblEpsilon : ℚ := 1 / 2 ^ 52

/-- The literal `1e-6` of line 88. -/
def eps1e6 : ℚ := 1 / 1000000

/-- Round-to-nearest as used when converting to `CV_8U` (ties differ from
round-half-even only at exact half-integers, which the claims do not
touch). -/
def pyRound (q : ℚ) : ℚ := (⌊q + 1 / 2⌋ : ℚ)

/-- `saturate_cast<uchar>`: round then clamp into [0, 255]. -/
def satCast255 (q : ℚ) : ℚ := max 0 (min 255 (pyRound q))

/-- `cv2.normalize(src, None, 0, 255, cv2.NORM_MINMAX, dtype=cv2.CV_8U)`,
modelled from OpenCV's documented semantics: affine map sending the
minimum to 0 and the maximum to 255, with scale 0 (all-zero output) when
`max - min` does not exceed `DBL_EPSILON`. -/
def cvNormalizeMinMax (f : NDField) : NDField :=
  if dblEpsilon < listMax f.data - listMin f.data then
    ⟨f.shape, f.data.map (fun v => satCast255 ((v - listMin f.data) *
      (255 / (listMax f.data - listMin f.data))))⟩
  else ⟨f.shape, f.data.map (fun _ => 0)⟩

/-- Lines 87-89 of `score.py`: normalize the blurred field when its maximum
exceeds `1e-6`, otherwise output a zero field of the same shape. -/
def normalizeStep (f : NDField) : NDField :=
  if eps1e6 < listMax f.data then cvNormalizeMinMax f else zerosOf f.shape

/-- `generate_spread_heatmap` from `score.py` (lines 45-96). The external
library collaborators — scipy's `gaussian_filter`, `cv2.GaussianBlur`,
`cv2.applyColorMap` and `cv2.addWeighted` — are passed in as function
parameters; a `none` image stands for a Python value that is not an
`np.ndarray` (line 47 then returns a 100×100 zero field). The `astype`
uint8 conversion of line 92 is identity on the pixel buffers modelled
here. -/
def generate_spread_heatmap (gaussianFilter : NDField → ℚ → NDField)
    (cvGaussianBlur : NDField → Nat → NDField)
    (applyColorMap : NDField → NpImage)
    (addWeighted : NpImage → ℚ → NpImage → ℚ → NpImage)
    (image : Option NpImage) (detection_results : List DetResult)
    (severity_map : List (String × ℚ)) (default_s_i : ℚ)
    (weighting : String) (alpha : ℚ) (spread_sigma : ℚ)
    (secondary_blur_ksize : Nat) : Option NpImage × NDField :=
  match image with
  | none => (none, zerosOf [100, 100])
  | some img =>
    if img.shape.length ≠ 3 then (some img, zerosOf (img.shape.take 2))
    else
      match detection_results with
      | [] => (some img, zerosOf (img.shape.take 2))
      | result :: _ =>
        let img_h := img.shape.getD 0 0
        let img_w := img.shape.getD 1 0
        let heatmap_raw := zerosOf [img_h, img_w]
        match result.boxes with
        | none => (some img, heatmap_raw)
        | some bs =>
          if bs.length = 0 then (some img, heatmap_raw)
          else
            match pointsData result.names severity_map default_s_i
                weighting img_h img_w bs with
            | [] => (some img, heatmap_raw)
            | p :: ps =>
              let raw := accumulatePoints img_h img_w (p :: ps)
              let heatmap_spread :=
                if 0 < spread_sigma then gaussianFilter raw spread_sigma
                else raw
              let heatmap_blurred :=
                if secondary_blur_ksize ≠ 0 ∧ 1 < secondary_blur_ksize ∧
                    secondary_blur_ksize % 2 = 1 then
                  cvGaussianBlur heatmap_spread secondary_blur_ksize
                else heatmap_spread
              let heatmap_norm := normalizeStep heatmap_blurred
              let heatmap_color := applyColorMap heatmap_norm
              let heatmap_overlay :=
                addWeighted heatmap_color alpha img (1 - alpha)
              (some heatmap_overlay, heatmap_norm)

/-- A Python exception caught by `analyze_skin_image`'s handlers, tagged by
which `except` arm would catch it (lines 254-263). Exceptions not derived
from `Exception` (`SystemExit`, `KeyboardInterrupt`) are not raised by the
collaborators modelled here. -/
inductive PyErr where
  | fileErr (msg : String)
  | importErr (msg : String)
  | otherErr (msg : String)
deriving DecidableEq

/-- The message each handler writes into `results` (lines 254-263). -/
def errMessage : PyErr → String
  | .fileErr m => "File Error: " ++ m
  | .importErr m => "Import Error: Missing library. " ++ m ++ "."
  | .otherErr m => "An unexpected error occurred: " ++ m

/-- A value stored in the `results` dictionary of `analyze_skin_image`. -/
inductive RVal where
  | bool (b : Bool)
  | str (s : String)
  | rat (q : ℚ)
  | nat (n : Nat)
  | image (i : Option NpImage)
  | dets (l : List (String × ℚ))
  | classes (m : List (Nat × String))

/-- The `results` dictionary: insertion-ordered key/value pairs, as a
Python dict. -/
abbrev RDict := List (String × RVal)

/-- `results[k] = v`: replace the value of an existing key in place, append
otherwise (Python dict assignment). -/
def setKey (k : String) (v : RVal) (d : RDict) : RDict :=
  if d.any (fun kv => kv.1 == k) then
    d.map (fun kv => if kv.1 == k then (k, v) else kv)
  else d ++ [(k, v)]

/-- `results.get(k)`. -/
def getKey (d : RDict) (k : String) : Option RVal :=
  List.lookup k d

/-- The initial `results` literal of lines 181-187. -/
def initResults (score_range : ℚ × ℚ) : RDict :=
  [("success", RVal.bool false),
   ("message", RVal.str "Analysis not started."),
   ("severity_score", RVal.rat score_range.1),
   ("percentage_area", RVal.rat 0),
   ("average_intensity", RVal.rat 0),
   ("lesion_count", RVal.nat 0),
   ("original_image_bgr", RVal.image none),
   ("heatmap_overlay_bgr", RVal.image none),
   ("detections", RVal.dets []),
   ("model_classes", RVal.classes [])]

/-- Lines 242-249: the `(class_name, confidence)` pairs extracted from the
raw detection list using the model's class table (skipping nothing in the
typed embedding, where each box is well-formed). -/
def extractDetections (model_classes : List (Nat × String))
    (prs : List DetResult) : List (String × ℚ) :=
  match prs with
  | [] => []
  | r :: _ =>
    match r.boxes with
    | none => []
    | some bs => bs.map (fun b => (lookupName model_classes b.cls, b.conf))

/-- The external world `analyze_skin_image` touches: the two
`os.path.exists` probes, `YOLO(model_path)` (whose `.names` table it
yields, or an exception), `cv2.imread` (`none` when the image cannot be
read), `model.predict` (the detection results, or an exception), and the
heatmap renderer's library collaborators. -/
structure Env where
  modelPathExists : Bool
  imagePathExists : Bool
  loadModel : Except PyErr (List (Nat × String))
  imread : Option NpImage
  predict : Except PyErr (List DetResult)
  gaussianFilter : NDField → ℚ → NDField
  cvGaussianBlur : NDField → Nat → NDField
  applyColorMap : NDField → NpImage
  addWeighted : NpImage → ℚ → NpImage → ℚ → NpImage

/-- `analyze_skin_image` from `score.py` (lines 142-265). Every exit path
returns the `results` dictionary (wrapped in `some` to make the
docstring's "Returns None" claim expressible); exceptions raised by the
collaborators land in the `except` arms, which only update `message`.
`conf_threshold` is forwarded to the detector inside `Env.predict` and is
otherwise unused, as in the source. -/
def analyze_skin_image (env : Env) (model_path image_path : String)
    (conf_threshold : ℚ) (severity_map : List (String × ℚ))
    (default_severity : ℚ) (heatmap_alpha heatmap_sigma : ℚ)
    (area_weight intensity_weight : ℚ) (score_range : ℚ × ℚ) :
    Option RDict :=
  let results := initResults score_range
  if env.modelPathExists = false then
    some (setKey "message"
      (RVal.str ("Model file not found: " ++ model_path)) results)
  else if env.imagePathExists = false then
    some (setKey "message"
      (RVal.str ("Image file not found: " ++ image_path)) results)
  else
    match env.loadModel with
    | Except.error e => some (setKey "message" (RVal.str (errMessage e))
        results)
    | Except.ok model_classes =>
      let results := setKey "model_classes" (RVal.classes model_classes)
        results
      match env.imread with
      | none => some (setKey "message"
          (RVal.str ("Could not read image file: " ++ image_path)) results)
      | some image_bgr =>
        let results := setKey "original_image_bgr"
          (RVal.image (some image_bgr)) results
        match env.predict with
        | Except.error e => some (setKey "message"
            (RVal.str (errMessage e)) results)
        | Except.ok predict_results =>
          let r4 := calculate_facial_severity_v2 predict_results
            image_bgr.shape severity_map default_severity score_range
            area_weight intensity_weight
          let results := setKey "severity_score" (RVal.rat r4.1) results
          let results := setKey "percentage_area" (RVal.rat r4.2.1) results
          let results := setKey "average_intensity" (RVal.rat r4.2.2.1)
            results
          let results := setKey "lesion_count" (RVal.nat r4.2.2.2) results
          let hm := generate_spread_heatmap env.gaussianFilter
            env.cvGaussianBlur env.applyColorMap env.addWeighted
            (some image_bgr) predict_results severity_map default_severity
            "confidence" heatmap_alpha heatmap_sigma 0
          let results := setKey "heatmap_overlay_bgr" (RVal.image hm.1)
            results
          let results := setKey "detections"
            (RVal.dets (extractDetections model_classes predict_results))
            results
          let results := setKey "success" (RVal.bool true) results
          let results := setKey "message"
            (RVal.str "Analysis completed successfully.") results
          some results

theorem foldl_scoreStep (names : List (Nat × String)) (m : List (String × ℚ))
    (d : ℚ) : ∀ (bs : List Box) (a s : ℚ) (k : Nat),
    bs.foldl (scoreStep names m d) (a, s, k) =
      (a + ((bs.filter usable).map boxArea).sum,
       s + ((bs.filter usable).map (resolveSeverity names m d)).sum,
       k + (bs.filter usable).length) := by
  intro bs
  induction bs with
  | nil => intro a s k; simp
  | cons b bs ih =>
    intro a s k
    by_cases hb : usable b
    · simp only [List.foldl_cons, scoreStep, hb, if_pos, List.filter_cons_of_pos,
        List.map_cons, List.sum_cons, List.length_cons, ih]
      simp only [Prod.mk.injEq]
      refine ⟨by ring, by ring, by omega⟩
    · simp only [List.foldl_cons, scoreStep, hb, if_neg, Bool.false_eq_true,
        not_false_eq_true, List.filter_cons_of_neg, ih]

/-- Closed form of the accumulation loop: the loop computes the sum of areas,
the sum of resolved severities and the count, over the usable boxes only. -/
theorem scoreLoop_eq (names : List (Nat × String)) (m : List (String × ℚ))
    (d : ℚ) (bs : List Box) :
    scoreLoop names m d bs =
      (((bs.filter usable).map boxArea).sum,
       ((bs.filter usable).map (resolveSeverity names m d)).sum,
       (bs.filter usable).length) := by
  simpa using foldl_scoreStep names m d bs 0 0 0

/-- C2: if the detections list is empty (either no result object or an empty
box list), or the image area is zero, or no detection is usable after
filtering, `calculate_facial_severity_v2` returns exactly
`(score_range.lower, 0.0, 0.0, 0)`; being a total function, it raises no
error. -/
theorem score_degenerate_cases (names : List (Nat × String)) (bs : List Box)
    (shape : List Nat) (m : List (String × ℚ)) (d : ℚ) (sr : ℚ × ℚ)
    (aw iw : ℚ)
    (h : bs = [] ∨ shape.getD 0 0 * shape.getD 1 0 = 0 ∨
      ∀ b ∈ bs, usable b = false) :
    calculate_facial_severity_v2 [⟨some bs, names⟩] shape m d sr aw iw
        = (sr.1, 0, 0, 0) ∧
    calculate_facial_severity_v2 [] shape m d sr aw iw = (sr.1, 0, 0, 0) := by
  refine ⟨?_, rfl⟩
  by_cases hsh : shape.length < 2
  · simp [calculate_facial_severity_v2, hsh]
  · rcases h with h | h | h
    · simp [calculate_facial_severity_v2, hsh, h]
    · have harea : ((shape.getD 0 0 : ℚ) * (shape.getD 1 0 : ℚ)) ≤ 0 := by
        have : ((shape.getD 0 0 * shape.getD 1 0 : Nat) : ℚ) = 0 := by
          rw [h]; norm_num
        push_cast at this
        exact le_of_eq this
      simp only [List.getD_eq_getElem?_getD] at harea
      simp [calculate_facial_severity_v2, hsh, harea]
    · have hfe : bs.filter usable = [] := by
        simp only [List.filter_eq_nil_iff]
        intro b hb
        simp [h b hb]
      by_cases hlen : bs.length = 0
      · simp [calculate_facial_severity_v2, hsh, hlen]
      · simp [calculate_facial_severity_v2, hsh, hlen, scoreLoop_eq, hfe]

/-- C3: for every input, as long as the configured range is a genuine
interval (lower ≤ upper), the score returned by
`calculate_facial_severity_v2` lies within `[scoreRange.lower,
scoreRange.upper]`, whatever the intermediate arithmetic produced. -/
theorem score_bounded (dr : List DetResult) (shape : List Nat)
    (m : List (String × ℚ)) (d : ℚ) (sr : ℚ × ℚ) (aw iw : ℚ)
    (hsr : sr.1 ≤ sr.2) :
    sr.1 ≤ (calculate_facial_severity_v2 dr shape m d sr aw iw).1 ∧
    (calculate_facial_severity_v2 dr shape m d sr aw iw).1 ≤ sr.2 := by
  unfold calculate_facial_severity_v2
  cases dr with
  | nil => exact ⟨le_refl _, hsr⟩
  | cons r rest =>
    dsimp only
    split
    · exact ⟨le_refl _, hsr⟩
    · split
      · exact ⟨le_refl _, hsr⟩
      · split
        · exact ⟨le_refl _, hsr⟩
        · split
          · exact ⟨le_refl _, hsr⟩
          · exact ⟨le_max_left _ _, max_le hsr (min_le_left _ _)⟩

/-- Witness for `score_degenerate_cases`. -/
theorem score_degenerate_cases_witness :
    calculate_facial_severity_v2 [⟨some [], []⟩] [640, 480, 3] SEVERITY_SCORE_MAP
        DEFAULT_SEVERITY_SCORE SCORE_RANGE AREA_WEIGHT INTENSITY_WEIGHT
      = (0, 0, 0, 0) ∧
    calculate_facial_severity_v2 [] [640, 480, 3] SEVERITY_SCORE_MAP
        DEFAULT_SEVERITY_SCORE SCORE_RANGE AREA_WEIGHT INTENSITY_WEIGHT
      = (0, 0, 0, 0) :=
  score_degenerate_cases [] [] [640, 480, 3] SEVERITY_SCORE_MAP
    DEFAULT_SEVERITY_SCORE SCORE_RANGE AREA_WEIGHT INTENSITY_WEIGHT
    (Or.inl rfl)

/-- Witness for `score_bounded`. -/
theorem score_bounded_witness :
    (0 : ℚ) ≤ (calculate_facial_severity_v2
        [⟨some [⟨0, 0, 3000, 3000, 0, 1⟩], [(0, "Acne")]⟩] [10, 10, 3]
        SEVERITY_SCORE_MAP DEFAULT_SEVERITY_SCORE SCORE_RANGE AREA_WEIGHT
        INTENSITY_WEIGHT).1 ∧
    (calculate_facial_severity_v2
        [⟨some [⟨0, 0, 3000, 3000, 0, 1⟩], [(0, "Acne")]⟩] [10, 10, 3]
        SEVERITY_SCORE_MAP DEFAULT_SEVERITY_SCORE SCORE_RANGE AREA_WEIGHT
        INTENSITY_WEIGHT).1 ≤ 100 :=
  score_bounded [⟨some [⟨0, 0, 3000, 3000, 0, 1⟩], [(0, "Acne")]⟩] [10, 10, 3]
    SEVERITY_SCORE_MAP DEFAULT_SEVERITY_SCORE SCORE_RANGE AREA_WEIGHT
    INTENSITY_WEIGHT (by norm_num [SCORE_RANGE])

/-- C1 (counterexample): at the spec's own scenario — a 1000×1000 image, one
detection box (100,100)-(200,200) whose class resolves to severity weight 3 —
the score computed by `calculate_facial_severity_v2` is 60.6, not the
arctangent value `(2·100/π)·atan(20·0.03) ≈ 34.4` the claim asserts: the code
uses a linear weighted sum of area and intensity components, not the
saturating arctangent transform. -/
theorem score_not_arctan_at_scenario :
    ¬ (((calculate_facial_severity_v2
        [⟨some [⟨100, 100, 200, 200, 0, 9 / 10⟩], [(0, "papules")]⟩]
        [1000, 1000, 3] [("papules", 3)] 1 (0, 100) (3 / 10) (6 / 10)).1 : ℝ)
      = 2 * 100 / Real.pi *
          Real.arctan (20 * (3 * (100 * 100) / (1000 * 1000)))) := by
  have hval : (calculate_facial_severity_v2
      [⟨some [⟨100, 100, 200, 200, 0, 9 / 10⟩], [(0, "papules")]⟩]
      [1000, 1000, 3] [("papules", 3)] 1 (0, 100) (3 / 10) (6 / 10)).1
      = (303 : ℚ) / 5 := by
    norm_num [calculate_facial_severity_v2, scoreLoop, scoreStep, usable,
      boxArea, resolveSeverity, severityGet, lookupName, dictValuesMax,
      effectiveMaxSeverity]
  rw [hval]
  intro hcontra
  have h1 : Real.arctan (20 * (3 * (100 * 100) / (1000 * 1000)))
      < Real.pi / 4 := by
    have h35 : (20 * (3 * (100 * 100) / (1000 * 1000)) : ℝ) = 3 / 5 := by
      norm_num
    rw [h35, ← Real.arctan_one]
    exact Real.arctan_strictMono (by norm_num)
  have hpos : (0 : ℝ) < 2 * 100 / Real.pi := by positivity
  have h2 : 2 * 100 / Real.pi *
      Real.arctan (20 * (3 * (100 * 100) / (1000 * 1000))) < 50 := by
    have hstep := mul_lt_mul_of_pos_left h1 hpos
    have hre : 2 * 100 / Real.pi * (Real.pi / 4) = 50 := by
      field_simp
      ring
    calc 2 * 100 / Real.pi *
          Real.arctan (20 * (3 * (100 * 100) / (1000 * 1000)))
        < 2 * 100 / Real.pi * (Real.pi / 4) := hstep
      _ = 50 := hre
  rw [← hcontra] at h2
  norm_num at h2

/-- C1 (amended): for every non-empty list of usable detections and positive
image area, the score returned by `calculate_facial_severity_v2` is the
clamped linear combination
`clamp(areaWeight·min(1, pct/50)·span + intensityWeight·min(1, avg/maxSev)·span + lower)`
(span = upper − lower, pct = Σ areaᵢ / imageArea × 100, avg = Σ severityᵢ / n,
maxSev the effective maximum of the severity map), together with the stated
percentage area, average intensity and lesion count — in particular 60.6 at
the spec's 1000×1000 scenario, not the arctangent value. -/
theorem score_closed_form_linear (names : List (Nat × String)) (bs : List Box)
    (h w : Nat) (rest : List Nat) (m : List (String × ℚ)) (d : ℚ)
    (sr : ℚ × ℚ) (aw iw : ℚ) (hne : bs ≠ [])
    (hus : ∀ b ∈ bs, usable b = true) (harea : 0 < (h : ℚ) * (w : ℚ)) :
    calculate_facial_severity_v2 [⟨some bs, names⟩] (h :: w :: rest) m d sr
        aw iw =
      (max sr.1 (min sr.2
        (aw * (min 1 ((bs.map boxArea).sum / ((h : ℚ) * w) * 100 / 50) *
            (sr.2 - sr.1)) +
         iw * (min 1 ((bs.map (resolveSeverity names m d)).sum /
              (bs.length : ℚ) / effectiveMaxSeverity m d) * (sr.2 - sr.1)) +
         sr.1)),
       (bs.map boxArea).sum / ((h : ℚ) * w) * 100,
       (bs.map (resolveSeverity names m d)).sum / (bs.length : ℚ),
       bs.length) := by
  have hf : bs.filter usable = bs :=
    List.filter_eq_self.mpr (by intro a ha; simp [hus a ha])
  have hn : ¬ bs.length = 0 := by simpa [List.length_eq_zero] using hne
  have hns : ¬ ((h : ℚ) * (w : ℚ) ≤ 0) := not_le.mpr harea
  simp [calculate_facial_severity_v2, scoreLoop_eq, hf, hn, hns]

/-- Witness for `score_closed_form_linear`: at the spec's scenario the
closed form evaluates to score 60.6 = 303/5, percentage area 1.0, average
intensity 3.0, lesion count 1. -/
theorem score_closed_form_linear_witness :
    calculate_facial_severity_v2
        [⟨some [⟨100, 100, 200, 200, 0, 9 / 10⟩], [(0, "papules")]⟩]
        [1000, 1000, 3] [("papules", 3)] 1 (0, 100) (3 / 10) (6 / 10)
      = (303 / 5, 1, 3, 1) := by
  have hcf := score_closed_form_linear [(0, "papules")]
    [⟨100, 100, 200, 200, 0, 9 / 10⟩] 1000 1000 [3] [("papules", 3)] 1
    (0, 100) (3 / 10) (6 / 10) (by simp)
    (by intro b hb; simp only [List.mem_singleton] at hb; subst hb;
        norm_num [usable])
    (by norm_num)
  rw [hcf]
  norm_num [boxArea, resolveSeverity, severityGet, lookupName,
    effectiveMaxSeverity, dictValuesMax]

/-- C5: a detection whose box has `x2 ≤ x1` or `y2 ≤ y1` is silently skipped
by `calculate_facial_severity_v2`: removing it from the box list changes
nothing — it contributes zero to the percentage area, the average intensity
and the lesion count, whatever its class id or confidence, and the call
still returns normally. -/
theorem score_skips_invalid_box (names : List (Nat × String))
    (l1 l2 : List Box) (bad : Box) (shape : List Nat)
    (m : List (String × ℚ)) (d : ℚ) (sr : ℚ × ℚ) (aw iw : ℚ)
    (hbad : usable bad = false) :
    calculate_facial_severity_v2 [⟨some (l1 ++ bad :: l2), names⟩] shape m d
        sr aw iw =
      calculate_facial_severity_v2 [⟨some (l1 ++ l2), names⟩] shape m d sr
        aw iw := by
  have hfilter : (l1 ++ bad :: l2).filter usable = (l1 ++ l2).filter usable := by
    simp [List.filter_append, List.filter_cons, hbad]
  by_cases hsh : shape.length < 2
  · simp [calculate_facial_severity_v2, hsh]
  · by_cases harea : ((shape.getD 0 0 : ℚ) * (shape.getD 1 0 : ℚ)) ≤ 0
    · simp only [List.getD_eq_getElem?_getD] at harea
      simp [calculate_facial_severity_v2, hsh, harea]
    · simp only [List.getD_eq_getElem?_getD] at harea
      by_cases hz : l1 ++ l2 = []
      · rcases List.append_eq_nil.mp hz with ⟨rfl, rfl⟩
        simp [calculate_facial_severity_v2, hsh, harea, scoreLoop_eq, hbad]
      · have hlen1 : ¬ (l1 ++ bad :: l2).length = 0 := by simp
        have hlen2 : ¬ (l1 ++ l2).length = 0 := by
          simpa [List.length_eq_zero] using hz
        have hz2 : ¬ (l1 = [] ∧ l2 = []) := by
          intro hc
          exact hz (by simp [hc.1, hc.2])
        simp [calculate_facial_severity_v2, hsh, harea, hlen1, hlen2, hz2,
          scoreLoop_eq, hfilter]

/-- Witness for `score_skips_invalid_box`: a zero-width box (x2 = x1) with
high severity class and confidence changes nothing. -/
theorem score_skips_invalid_box_witness :
    calculate_facial_severity_v2
        [⟨some [⟨5, 5, 5, 9, 0, 1⟩, ⟨0, 0, 10, 10, 1, 1⟩], [(0, "Acne"), (1, "Blackheads")]⟩]
        [100, 100, 3] SEVERITY_SCORE_MAP DEFAULT_SEVERITY_SCORE SCORE_RANGE
        AREA_WEIGHT INTENSITY_WEIGHT =
      calculate_facial_severity_v2
        [⟨some [⟨0, 0, 10, 10, 1, 1⟩], [(0, "Acne"), (1, "Blackheads")]⟩]
        [100, 100, 3] SEVERITY_SCORE_MAP DEFAULT_SEVERITY_SCORE SCORE_RANGE
        AREA_WEIGHT INTENSITY_WEIGHT :=
  score_skips_invalid_box [(0, "Acne"), (1, "Blackheads")] []
    [⟨0, 0, 10, 10, 1, 1⟩] ⟨5, 5, 5, 9, 0, 1⟩ [100, 100, 3]
    SEVERITY_SCORE_MAP DEFAULT_SEVERITY_SCORE SCORE_RANGE AREA_WEIGHT
    INTENSITY_WEIGHT (by norm_num [usable])

/-- C4 (counterexample): increasing the severity weight resolved for one
single usable detection (its map entry growing from 3 to 10) while every
other detection's resolved weight stays fixed can strictly DECREASE the
score returned by `calculate_facial_severity_v2`: the code divides the
average intensity by the maximum of the severity map's values, and raising
the one weight also raises that maximum. Concretely the score drops from
61.2 to 40.2. -/
theorem score_weight_increase_can_decrease_score :
    resolveSeverity [(0, "A"), (1, "B")] [("A", 3), ("B", 3)] 1
        ⟨0, 0, 10, 10, 0, 1⟩ <
      resolveSeverity [(0, "A"), (1, "B")] [("A", 10), ("B", 3)] 1
        ⟨0, 0, 10, 10, 0, 1⟩ ∧
    resolveSeverity [(0, "A"), (1, "B")] [("A", 10), ("B", 3)] 1
        ⟨0, 0, 10, 10, 1, 1⟩ =
      resolveSeverity [(0, "A"), (1, "B")] [("A", 3), ("B", 3)] 1
        ⟨0, 0, 10, 10, 1, 1⟩ ∧
    usable ⟨0, 0, 10, 10, 0, 1⟩ = true ∧
    (calculate_facial_severity_v2
        [⟨some [⟨0, 0, 10, 10, 0, 1⟩, ⟨0, 0, 10, 10, 1, 1⟩],
          [(0, "A"), (1, "B")]⟩]
        [100, 100, 3] [("A", 10), ("B", 3)] 1 (0, 100) (3 / 10) (6 / 10)).1 <
      (calculate_facial_severity_v2
        [⟨some [⟨0, 0, 10, 10, 0, 1⟩, ⟨0, 0, 10, 10, 1, 1⟩],
          [(0, "A"), (1, "B")]⟩]
        [100, 100, 3] [("A", 3), ("B", 3)] 1 (0, 100) (3 / 10) (6 / 10)).1 := by
  have r1 : resolveSeverity [(0, "A"), (1, "B")] [("A", 10), ("B", 3)] 1
      ⟨0, 0, 10, 10, 0, 1⟩ = 10 := by
    simp [resolveSeverity, severityGet, lookupName, List.lookup]
  have r2 : resolveSeverity [(0, "A"), (1, "B")] [("A", 10), ("B", 3)] 1
      ⟨0, 0, 10, 10, 1, 1⟩ = 3 := by
    simp [resolveSeverity, severityGet, lookupName, List.lookup]
  have r3 : resolveSeverity [(0, "A"), (1, "B")] [("A", 3), ("B", 3)] 1
      ⟨0, 0, 10, 10, 0, 1⟩ = 3 := by
    simp [resolveSeverity, severityGet, lookupName, List.lookup]
  have r4 : resolveSeverity [(0, "A"), (1, "B")] [("A", 3), ("B", 3)] 1
      ⟨0, 0, 10, 10, 1, 1⟩ = 3 := by
    simp [resolveSeverity, severityGet, lookupName, List.lookup]
  have u1 : usable ⟨0, 0, 10, 10, 0, (1 : ℚ)⟩ = true := by norm_num [usable]
  have u2 : usable ⟨0, 0, 10, 10, 1, (1 : ℚ)⟩ = true := by norm_num [usable]
  refine ⟨by rw [r1, r3]; norm_num, by rw [r2, r4], u1, ?_⟩
  norm_num [calculate_facial_severity_v2, scoreLoop, scoreStep, boxArea,
    r1, r2, r3, r4, u1, u2, dictValuesMax, effectiveMaxSeverity,
    min_def, max_def]

/-- C4 (amended): increasing the severity weight resolved for one single
usable detection, with every other detection's resolved weight unchanged,
never decreases the average intensity returned by
`calculate_facial_severity_v2`; and it never decreases the score provided
the effective maximum severity (`max(severity_map.values())` after the
nonpositive fallback) is unchanged, the intensity weight is nonnegative
and the score range is well-formed. -/
theorem score_monotone_fixed_max (names : List (Nat × String))
    (m m' : List (String × ℚ)) (d d' : ℚ) (l1 l2 : List Box) (b : Box)
    (shape : List Nat) (sr : ℚ × ℚ) (aw iw : ℚ)
    (husable : usable b = true)
    (hother : ∀ x ∈ l1 ++ l2,
      resolveSeverity names m' d' x = resolveSeverity names m d x)
    (hinc : resolveSeverity names m d b ≤ resolveSeverity names m' d' b) :
    (calculate_facial_severity_v2 [⟨some (l1 ++ b :: l2), names⟩] shape m d
        sr aw iw).2.2.1 ≤
      (calculate_facial_severity_v2 [⟨some (l1 ++ b :: l2), names⟩] shape m'
        d' sr aw iw).2.2.1 ∧
    (effectiveMaxSeverity m' d' = effectiveMaxSeverity m d → 0 ≤ iw →
      sr.1 ≤ sr.2 →
      (calculate_facial_severity_v2 [⟨some (l1 ++ b :: l2), names⟩] shape m
          d sr aw iw).1 ≤
        (calculate_facial_severity_v2 [⟨some (l1 ++ b :: l2), names⟩] shape
          m' d' sr aw iw).1) := by
  have hsum1 : ((l1.filter usable).map (resolveSeverity names m' d')).sum =
      ((l1.filter usable).map (resolveSeverity names m d)).sum := by
    refine congrArg List.sum (List.map_congr_left ?_)
    intro x hx
    exact hother x (List.mem_append_left _ (List.mem_of_mem_filter hx))
  have hsum2 : ((l2.filter usable).map (resolveSeverity names m' d')).sum =
      ((l2.filter usable).map (resolveSeverity names m d)).sum := by
    refine congrArg List.sum (List.map_congr_left ?_)
    intro x hx
    exact hother x (List.mem_append_right _ (List.mem_of_mem_filter hx))
  have hM : 0 < effectiveMaxSeverity m d := by
    unfold effectiveMaxSeverity
    split
    · norm_num
    · exact not_le.mp (by assumption)
  have hnpos : (0 : ℚ) <
      (((l1.filter usable).length + ((l2.filter usable).length + 1) :
        Nat) : ℚ) := by
    have hp : 0 < (l1.filter usable).length +
        ((l2.filter usable).length + 1) := by omega
    exact_mod_cast hp
  have hSd : (List.map (resolveSeverity names m d)
        (List.filter usable l1)).sum +
      (resolveSeverity names m d b +
        (List.map (resolveSeverity names m d)
          (List.filter usable l2)).sum) ≤
      (List.map (resolveSeverity names m d)
        (List.filter usable l1)).sum +
      (resolveSeverity names m' d' b +
        (List.map (resolveSeverity names m d)
          (List.filter usable l2)).sum) := by linarith
  have havg := (div_le_div_iff_of_pos_right hnpos).mpr hSd
  constructor
  · by_cases hsh : shape.length < 2
    · simp [calculate_facial_severity_v2, hsh]
    · by_cases harea : ((shape.getD 0 0 : ℚ) * (shape.getD 1 0 : ℚ)) ≤ 0
      · simp only [List.getD_eq_getElem?_getD] at harea
        simp [calculate_facial_severity_v2, hsh, harea]
      · have hblen : ¬ (l1 ++ b :: l2).length = 0 := by simp
        simp only [calculate_facial_severity_v2, hsh, if_false, hblen,
          scoreLoop_eq, List.filter_append, List.filter_cons, husable,
          if_true, List.map_append, List.map_cons, List.sum_append,
          List.sum_cons, List.length_append, List.length_cons, hsum1,
          hsum2]
        have hcond : ¬ (l1.length + (l2.length + 1) = 0 ∨
            ((shape.getD 0 0 : ℚ)) * ((shape.getD 1 0 : ℚ)) ≤ 0) :=
          not_or.mpr ⟨by omega, harea⟩
        simp only [if_neg hcond]
        have hcond2 : ¬ ((l1.filter usable).length +
            ((l2.filter usable).length + 1) = 0) := by omega
        simp only [if_neg hcond2]
        exact havg
  · intro hmax hiw hsr
    by_cases hsh : shape.length < 2
    · simp [calculate_facial_severity_v2, hsh]
    · by_cases harea : ((shape.getD 0 0 : ℚ) * (shape.getD 1 0 : ℚ)) ≤ 0
      · simp only [List.getD_eq_getElem?_getD] at harea
        simp [calculate_facial_severity_v2, hsh, harea]
      · have hblen : ¬ (l1 ++ b :: l2).length = 0 := by simp
        simp only [calculate_facial_severity_v2, hsh, if_false, hblen,
          scoreLoop_eq, List.filter_append, List.filter_cons, husable,
          if_true, List.map_append, List.map_cons, List.sum_append,
          List.sum_cons, List.length_append, List.length_cons, hsum1,
          hsum2, hmax]
        have hcond : ¬ (l1.length + (l2.length + 1) = 0 ∨
            ((shape.getD 0 0 : ℚ)) * ((shape.getD 1 0 : ℚ)) ≤ 0) :=
          not_or.mpr ⟨by omega, harea⟩
        simp only [if_neg hcond]
        have hcond2 : ¬ ((l1.filter usable).length +
            ((l2.filter usable).length + 1) = 0) := by omega
        simp only [if_neg hcond2]
        refine max_le_max le_rfl (min_le_min le_rfl ?_)
        have h1 := (div_le_div_iff_of_pos_right hM).mpr havg
        have h2 := min_le_min (le_refl (1 : ℚ)) h1
        have h3 := mul_le_mul_of_nonneg_right h2 (sub_nonneg.mpr hsr)
        have h4 := mul_le_mul_of_nonneg_left h3 hiw
        exact add_le_add (add_le_add_left h4 _) le_rfl

/-- Witness for `score_monotone_fixed_max`: one unmapped-class detection
whose default severity grows from 2 to 3 (map maximum 5 unchanged). -/
theorem score_monotone_fixed_max_witness :
    (calculate_facial_severity_v2 [⟨some [⟨0, 0, 10, 10, 0, 1⟩], [(0, "Z")]⟩]
        [100, 100, 3] [("A", 5)] 2 (0, 100) (3 / 10) (6 / 10)).2.2.1 ≤
      (calculate_facial_severity_v2 [⟨some [⟨0, 0, 10, 10, 0, 1⟩],
          [(0, "Z")]⟩]
        [100, 100, 3] [("A", 5)] 3 (0, 100) (3 / 10) (6 / 10)).2.2.1 ∧
    (calculate_facial_severity_v2 [⟨some [⟨0, 0, 10, 10, 0, 1⟩], [(0, "Z")]⟩]
        [100, 100, 3] [("A", 5)] 2 (0, 100) (3 / 10) (6 / 10)).1 ≤
      (calculate_facial_severity_v2 [⟨some [⟨0, 0, 10, 10, 0, 1⟩],
          [(0, "Z")]⟩]
        [100, 100, 3] [("A", 5)] 3 (0, 100) (3 / 10) (6 / 10)).1 := by
  have h := score_monotone_fixed_max [(0, "Z")] [("A", 5)] [("A", 5)] 2 3
    [] [] ⟨0, 0, 10, 10, 0, 1⟩ [100, 100, 3] (0, 100) (3 / 10) (6 / 10)
    (by norm_num [usable])
    (by intro x hx; simp at hx)
    (by simp [resolveSeverity, severityGet, lookupName, List.lookup]
        norm_num)
  exact ⟨h.1, h.2 (by norm_num [effectiveMaxSeverity, dictValuesMax])
    (by norm_num) (by norm_num)⟩

theorem foldl_max_mem (xs : List ℚ) : ∀ x : ℚ, xs.foldl max x ∈ x :: xs := by
  induction xs with
  | nil => intro x; simp
  | cons y ys ih =>
    intro x
    rcases List.mem_cons.mp (ih (max x y)) with h1 | h1
    · rw [List.foldl_cons, h1]
      rcases max_choice x y with hc | hc <;> rw [hc] <;> simp
    · rw [List.foldl_cons]
      exact List.mem_cons_of_mem _ (List.mem_cons_of_mem _ h1)

theorem foldl_min_mem (xs : List ℚ) : ∀ x : ℚ, xs.foldl min x ∈ x :: xs := by
  induction xs with
  | nil => intro x; simp
  | cons y ys ih =>
    intro x
    rcases List.mem_cons.mp (ih (min x y)) with h1 | h1
    · rw [List.foldl_cons, h1]
      rcases min_choice x y with hc | hc <;> rw [hc] <;> simp
    · rw [List.foldl_cons]
      exact List.mem_cons_of_mem _ (List.mem_cons_of_mem _ h1)

theorem listMax_mem (l : List ℚ) (hl : l ≠ []) : listMax l ∈ l := by
  cases l with
  | nil => exact absurd rfl hl
  | cons x xs => exact foldl_max_mem xs x

theorem listMin_mem (l : List ℚ) (hl : l ≠ []) : listMin l ∈ l := by
  cases l with
  | nil => exact absurd rfl hl
  | cons x xs => exact foldl_min_mem xs x

theorem accumulatePoints_data_length (h w : Nat)
    (ps : List (Nat × Nat × ℚ)) :
    (accumulatePoints h w ps).data.length = h * w := by
  have base : (zerosOf [h, w]).data.length = h * w := by
    simp [zerosOf]
  suffices hgen : ∀ (qs : List (Nat × Nat × ℚ)) (f : NDField),
      (qs.foldl (fun f p => addAt f (p.1 * w + p.2.1) p.2.2) f).data.length
        = f.data.length by
    rw [accumulatePoints, hgen, base]
  intro qs
  induction qs with
  | nil => intro f; rfl
  | cons q qs ih =>
    intro f
    rw [List.foldl_cons, ih]
    simp [addAt]

theorem clamp_toNat_lt (t : Int) (w : Nat) (hw : 1 ≤ w) :
    (max 0 (min ((w : Int) - 1) t)).toNat < w := by
  have h1 : min ((w : Int) - 1) t ≤ (w : Int) - 1 := min_le_left _ _
  have h0 : (0 : Int) ≤ (w : Int) - 1 := by
    have : (1 : Int) ≤ (w : Int) := by exact_mod_cast hw
    omega
  have h2 : max 0 (min ((w : Int) - 1) t) ≤ (w : Int) - 1 := max_le h0 h1
  omega

/-- C6 (counterexample): the fallback test of `generate_spread_heatmap` is
`image.ndim != 3` (dimensionality), not "3-channel": a 1×2×4 pixel buffer —
three-dimensional but with 4 channels, so not a 3-channel buffer — with one
detection of confidence 1 is NOT returned unchanged with an all-zero field;
the renderer proceeds and outputs the normalized field `[255, 0]`. -/
theorem heatmap_not_fallback_on_4channel :
    [1, 2, 4].getD 2 0 ≠ 3 ∧
    (generate_spread_heatmap (fun f _ => f) (fun f _ => f)
        (fun f => ⟨f.shape, f.data⟩) (fun a _ _ _ => a)
        (some ⟨[1, 2, 4], [0, 0, 0, 0, 0, 0, 0, 0]⟩)
        [⟨some [⟨0, 0, 1, 1, 0, 1⟩], []⟩] [] 1 "confidence" (1 / 2) 0 0).2
      = ⟨[1, 2], [255, 0]⟩ ∧
    (⟨[1, 2], [255, 0]⟩ : NDField) ≠ zerosOf [1, 2] := by
  have hpw : pointWeight [] [] 1 "confidence" ⟨0, 0, 1, 1, 0, 1⟩ = 1 := by
    simp [pointWeight]
  have hctr : centerX ⟨0, 0, 1, 1, 0, 1⟩ 2 = 0 ∧
      centerY ⟨0, 0, 1, 1, 0, 1⟩ 1 = 0 := by
    constructor <;> norm_num [centerX, centerY, pyInt]
  have hpts : pointsData [] [] 1 "confidence" 1 2 [⟨0, 0, 1, 1, 0, 1⟩]
      = [(0, 0, 1)] := by
    simp only [pointsData, List.filterMap]
    norm_num [hpw, hctr.1, hctr.2]
  have hacc : accumulatePoints 1 2 [(0, 0, (1 : ℚ))] = ⟨[1, 2], [1, 0]⟩ := by
    norm_num [accumulatePoints, zerosOf, addAt, List.replicate, List.set,
      List.getD]
  have hnorm : normalizeStep ⟨[1, 2], [1, 0]⟩ = ⟨[1, 2], [255, 0]⟩ := by
    norm_num [normalizeStep, cvNormalizeMinMax, listMax, listMin, max_def,
      min_def, eps1e6, dblEpsilon, satCast255, pyRound, NDField.mk.injEq]
  refine ⟨by norm_num, ?_, ?_⟩
  · simp [generate_spread_heatmap]
    rw [hpts]
    norm_num [hacc, hnorm]
  · intro hcontra
    have hdata := congrArg NDField.data hcontra
    norm_num [zerosOf, List.replicate] at hdata

/-- C6 (amended): if the image is a pixel buffer that is not 3-dimensional
(`image.ndim != 3` — the code's actual test, rather than the claimed
"3-channel"), or the detections list is empty, `generate_spread_heatmap`
returns the original image unchanged together with an all-zero field whose
spatial dimensions are the image's first two shape entries. -/
theorem heatmap_fallback (gF : NDField → ℚ → NDField)
    (cGB : NDField → Nat → NDField) (aCM : NDField → NpImage)
    (aW : NpImage → ℚ → NpImage → ℚ → NpImage) (img : NpImage)
    (dr : List DetResult) (m : List (String × ℚ)) (d : ℚ) (wmode : String)
    (alpha sigma : ℚ) (ksize : Nat)
    (h : img.shape.length ≠ 3 ∨ dr = []) :
    generate_spread_heatmap gF cGB aCM aW (some img) dr m d wmode alpha
        sigma ksize = (some img, zerosOf (img.shape.take 2)) ∧
    (zerosOf (img.shape.take 2)).shape = img.shape.take 2 ∧
    ∀ v ∈ (zerosOf (img.shape.take 2)).data, v = 0 := by
  refine ⟨?_, rfl, ?_⟩
  · rcases h with h | h
    · simp [generate_spread_heatmap, h]
    · subst h
      by_cases h3 : img.shape.length = 3 <;>
        simp [generate_spread_heatmap, h3]
  · intro v hv
    simp only [zerosOf, List.mem_replicate] at hv
    exact hv.2

/-- Witness for `heatmap_fallback`: a 2×2 RGB image with no detections. -/
theorem heatmap_fallback_witness :
    generate_spread_heatmap (fun f _ => f) (fun f _ => f)
        (fun f => ⟨f.shape, f.data⟩) (fun a _ _ _ => a)
        (some ⟨[2, 2, 3], List.replicate 12 0⟩) [] [] 1 "confidence"
        (1 / 2) 40 0 =
      (some ⟨[2, 2, 3], List.replicate 12 0⟩, zerosOf [2, 2]) ∧
    ∀ v ∈ (zerosOf [2, 2]).data, v = 0 := by
  have hw := heatmap_fallback (fun f _ => f) (fun f _ => f)
    (fun f => ⟨f.shape, f.data⟩) (fun a _ _ _ => a)
    ⟨[2, 2, 3], List.replicate 12 0⟩ [] [] 1 "confidence" (1 / 2) 40 0
    (Or.inr rfl)
  exact ⟨hw.1, hw.2.2⟩

/-- C9: for every detection and every image with positive height and width,
the clamped center satisfies `0 ≤ cx ≤ w−1` and `0 ≤ cy ≤ h−1` (the lower
bound holds by construction since the embedded indices are naturals), every
accumulated point's flattened index `cy·w + cx` is strictly below `h·w`,
and the accumulation buffer has exactly `h·w` cells — so the point-mass
write is always in bounds. -/
theorem heatmap_center_in_bounds (names : List (Nat × String))
    (m : List (String × ℚ)) (d : ℚ) (wmode : String) (h w : Nat)
    (b : Box) (bs : List Box) (hh : 1 ≤ h) (hw : 1 ≤ w) :
    centerX b w < w ∧ centerY b h < h ∧
    (∀ p ∈ pointsData names m d wmode h w bs,
      p.1 < h ∧ p.2.1 < w ∧ p.1 * w + p.2.1 < h * w) ∧
    (accumulatePoints h w (pointsData names m d wmode h w bs)).data.length
      = h * w := by
  refine ⟨clamp_toNat_lt _ w hw, clamp_toNat_lt _ h hh, ?_,
    accumulatePoints_data_length h w _⟩
  intro p hp
  rcases List.mem_filterMap.mp hp with ⟨b', hb', hfb⟩
  dsimp only at hfb
  split_ifs at hfb
  rcases Option.some.inj hfb with rfl
  have hcy : centerY b' h < h := clamp_toNat_lt _ h hh
  have hcx : centerX b' w < w := clamp_toNat_lt _ w hw
  refine ⟨hcy, hcx, ?_⟩
  calc centerY b' h * w + centerX b' w
      < centerY b' h * w + w := by omega
    _ = (centerY b' h + 1) * w := by ring
    _ ≤ h * w := Nat.mul_le_mul_right w (by omega)

/-- Witness for `heatmap_center_in_bounds`: a box far out of frame is
clamped into a 640×480 image. -/
theorem heatmap_center_in_bounds_witness :
    centerX ⟨-500, -500, 10000, 10000, 0, 1⟩ 640 < 640 ∧
    centerY ⟨-500, -500, 10000, 10000, 0, 1⟩ 480 < 480 := by
  have hb := heatmap_center_in_bounds [] [] 1 "confidence" 480 640
    ⟨-500, -500, 10000, 10000, 0, 1⟩ [⟨-500, -500, 10000, 10000, 0, 1⟩]
    (by norm_num) (by norm_num)
  exact ⟨hb.1, hb.2.1⟩

/-- C7 (counterexample): on a 1×2 image with one detection of confidence
exactly `1e-6` and no blur, the blurred field's maximum equals `1e-6` —
NOT below the epsilon — yet `generate_spread_heatmap` outputs the all-zero
field, whereas min-max normalization of that field (what the claim's
"otherwise" branch demands) is not all-zero: the code's test is
`max > 1e-6`, so the boundary value `max = 1e-6` is zeroed, not
normalized. -/
theorem normalize_boundary_counterexample :
    (generate_spread_heatmap (fun f _ => f) (fun f _ => f)
        (fun f => ⟨f.shape, f.data⟩) (fun a _ _ _ => a)
        (some ⟨[1, 2, 3], [0, 0, 0, 0, 0, 0]⟩)
        [⟨some [⟨0, 0, 1, 1, 0, 1 / 1000000⟩], []⟩] [] 1 "confidence"
        (1 / 2) 0 0).2 = zerosOf [1, 2] ∧
    listMax (accumulatePoints 1 2 (pointsData [] [] 1 "confidence" 1 2
        [⟨0, 0, 1, 1, 0, 1 / 1000000⟩])).data = eps1e6 ∧
    ¬ (listMax (accumulatePoints 1 2 (pointsData [] [] 1 "confidence" 1 2
        [⟨0, 0, 1, 1, 0, 1 / 1000000⟩])).data < eps1e6) ∧
    cvNormalizeMinMax (accumulatePoints 1 2 (pointsData [] [] 1
        "confidence" 1 2 [⟨0, 0, 1, 1, 0, 1 / 1000000⟩])) ≠
      zerosOf [1, 2] := by
  have hpw : pointWeight [] [] 1 "confidence" ⟨0, 0, 1, 1, 0, 1 / 1000000⟩
      = 1 / 1000000 := by
    simp [pointWeight]
  have hctr : centerX ⟨0, 0, 1, 1, 0, 1 / 1000000⟩ 2 = 0 ∧
      centerY ⟨0, 0, 1, 1, 0, 1 / 1000000⟩ 1 = 0 := by
    constructor <;> norm_num [centerX, centerY, pyInt]
  have hpts : pointsData [] [] 1 "confidence" 1 2
      [⟨0, 0, 1, 1, 0, 1 / 1000000⟩] = [(0, 0, 1 / 1000000)] := by
    simp only [pointsData, List.filterMap]
    norm_num [hpw, hctr.1, hctr.2]
  have hacc : accumulatePoints 1 2 [(0, 0, (1 : ℚ) / 1000000)] =
      ⟨[1, 2], [1 / 1000000, 0]⟩ := by
    norm_num [accumulatePoints, zerosOf, addAt, List.replicate, List.set,
      List.getD]
  have hmax : listMax ((⟨[1, 2], [1 / 1000000, 0]⟩ : NDField)).data =
      (1 : ℚ) / 1000000 := by
    norm_num [listMax, max_def]
  have hmin : listMin ((⟨[1, 2], [1 / 1000000, 0]⟩ : NDField)).data =
      (0 : ℚ) := by
    norm_num [listMin, min_def]
  refine ⟨?_, ?_, ?_, ?_⟩
  · simp [generate_spread_heatmap]
    have hpts2 := hpts
    simp only [one_div] at hpts2
    rw [hpts2]
    norm_num [normalizeStep, hacc, hmax, eps1e6]
  · rw [hpts, hacc, hmax, eps1e6]
  · rw [hpts, hacc, hmax, eps1e6]
    norm_num
  · rw [hpts, hacc]
    rw [cvNormalizeMinMax, if_pos (by rw [hmax, hmin]; norm_num [dblEpsilon])]
    intro hcontra
    have hdata := congrArg NDField.data hcontra
    rw [hmax, hmin] at hdata
    norm_num [zerosOf, satCast255, pyRound, List.replicate] at hdata

/-- C7 (amended): in the heatmap renderer's normalization step, if the
maximum of the blurred field is at most the epsilon `1e-6` the output
field is all zeros; if it strictly exceeds the epsilon the field is
min-max normalized to the 0–255 range — with the minimum mapping to 0 and
the maximum to 255 whenever the field's spread `max − min` exceeds the
scaling guard `DBL_EPSILON`. -/
theorem normalize_step_spec (f : NDField) :
    (listMax f.data ≤ eps1e6 → normalizeStep f = zerosOf f.shape) ∧
    (eps1e6 < listMax f.data → normalizeStep f = cvNormalizeMinMax f ∧
      (dblEpsilon < listMax f.data - listMin f.data →
        (255 : ℚ) ∈ (normalizeStep f).data ∧
        (0 : ℚ) ∈ (normalizeStep f).data)) := by
  constructor
  · intro hle
    rw [normalizeStep, if_neg (not_lt.mpr hle)]
  · intro hlt
    have heq : normalizeStep f = cvNormalizeMinMax f := by
      rw [normalizeStep, if_pos hlt]
    refine ⟨heq, ?_⟩
    intro hdb
    have hne : f.data ≠ [] := by
      intro hnil
      rw [hnil] at hlt
      norm_num [listMax, eps1e6] at hlt
    rw [heq, cvNormalizeMinMax, if_pos hdb]
    constructor
    · refine List.mem_map.mpr ⟨listMax f.data, listMax_mem f.data hne, ?_⟩
      have hd0 : listMax f.data - listMin f.data ≠ 0 := by
        have hdpos : (0 : ℚ) < dblEpsilon := by norm_num [dblEpsilon]
        exact ne_of_gt (lt_trans hdpos hdb)
      have hv : (listMax f.data - listMin f.data) *
          (255 / (listMax f.data - listMin f.data)) = 255 := by
        field_simp
      rw [hv]
      norm_num [satCast255, pyRound]
    · refine List.mem_map.mpr ⟨listMin f.data, listMin_mem f.data hne, ?_⟩
      rw [sub_self, zero_mul]
      norm_num [satCast255, pyRound]

/-- Witness for `normalize_step_spec`: the field `[1, 0]` has maximum above
the epsilon, so it is min-max normalized and attains both 255 and 0. -/
theorem normalize_step_spec_witness :
    normalizeStep ⟨[1, 2], [1, 0]⟩ = cvNormalizeMinMax ⟨[1, 2], [1, 0]⟩ ∧
    (255 : ℚ) ∈ (normalizeStep ⟨[1, 2], [1, 0]⟩).data ∧
    (0 : ℚ) ∈ (normalizeStep ⟨[1, 2], [1, 0]⟩).data := by
  have hs := (normalize_step_spec ⟨[1, 2], [1, 0]⟩).2
    (by norm_num [listMax, eps1e6, max_def])
  refine ⟨hs.1, ?_, ?_⟩
  · exact (hs.2 (by norm_num [listMax, listMin, max_def, min_def,
      dblEpsilon])).1
  · exact (hs.2 (by norm_num [listMax, listMin, max_def, min_def,
      dblEpsilon])).2

theorem generate_overlay_isSome (gF : NDField → ℚ → NDField)
    (cGB : NDField → Nat → NDField) (aCM : NDField → NpImage)
    (aW : NpImage → ℚ → NpImage → ℚ → NpImage) (img : NpImage)
    (dr : List DetResult) (m : List (String × ℚ)) (d : ℚ) (wmode : String)
    (alpha sigma : ℚ) (ksize : Nat) :
    ∃ out, (generate_spread_heatmap gF cGB aCM aW (some img) dr m d wmode
      alpha sigma ksize).1 = some out := by
  unfold generate_spread_heatmap
  dsimp only
  repeat' split
  all_goals exact ⟨_, rfl⟩

/-- C8: for every environment, if the model file is missing, the image file
is missing, loading the model raises, the image cannot be read, or the
detector raises, then `analyze_skin_image` returns a dictionary with
`success = false` and one of the documented human-readable messages; and
whenever the returned dictionary has `success = true` it is fully
populated: the original image and heatmap overlay are present (not `None`)
and the message is the completion message. The function is total, so no
exception reaches the caller. -/
theorem beq_symm_false {a b : String} (h : (a == b) = false) :
    (b == a) = false :=
  beq_eq_false_iff_ne.mpr (fun he => (beq_eq_false_iff_ne.mp h) he.symm)

theorem lookup_map_setKey (k : String) (v : RVal) :
    ∀ d : RDict, d.any (fun kv => kv.1 == k) = true →
      List.lookup k (d.map (fun kv => if kv.1 == k then (k, v) else kv))
        = some v := by
  intro d
  induction d with
  | nil => intro h; simp at h
  | cons kv rest ih =>
    intro h
    by_cases hk : (kv.1 == k) = true
    · rw [List.map_cons, if_pos hk, List.lookup, beq_self_eq_true]
    · have hk' : (kv.1 == k) = false := Bool.eq_false_iff.mpr hk
      have hq : (k == kv.1) = false := beq_symm_false hk'
      have hrest : rest.any (fun kv => kv.1 == k) = true := by
        simpa [List.any_cons, hk'] using h
      rw [List.map_cons, if_neg hk, List.lookup, hq]
      exact ih hrest

theorem lookup_append_setKey (k : String) (v : RVal) :
    ∀ d : RDict, d.any (fun kv => kv.1 == k) = false →
      List.lookup k (d ++ [(k, v)]) = some v := by
  intro d
  induction d with
  | nil => intro h; simp [List.lookup]
  | cons kv rest ih =>
    intro h
    simp only [List.any_cons, Bool.or_eq_false_iff] at h
    have hq : (k == kv.1) = false := beq_symm_false h.1
    rw [List.cons_append, List.lookup, hq]
    exact ih h.2

/-- Reading back the key just assigned: `results[k] = v; results[k] == v`. -/
theorem getKey_setKey_self (k : String) (v : RVal) (d : RDict) :
    getKey (setKey k v d) k = some v := by
  rw [getKey, setKey]
  split_ifs with hany
  · exact lookup_map_setKey k v d hany
  · exact lookup_append_setKey k v d (Bool.eq_false_iff.mpr hany)

theorem lookup_map_setKey_other (k q : String) (v : RVal)
    (hne : (q == k) = false) :
    ∀ d : RDict,
      List.lookup q (d.map (fun kv => if kv.1 == k then (k, v) else kv))
        = List.lookup q d := by
  intro d
  induction d with
  | nil => rfl
  | cons kv rest ih =>
    by_cases hk : (kv.1 == k) = true
    · have he : kv.1 = k := eq_of_beq hk
      rw [List.map_cons, if_pos hk, List.lookup, hne, List.lookup, he, hne]
      exact ih
    · have hk' : (kv.1 == k) = false := Bool.eq_false_iff.mpr hk
      by_cases hq : (q == kv.1) = true
      · rw [List.map_cons, if_neg hk, List.lookup, hq, List.lookup, hq]
      · have hq' : (q == kv.1) = false := Bool.eq_false_iff.mpr hq
        rw [List.map_cons, if_neg hk, List.lookup, hq', List.lookup, hq']
        exact ih

theorem lookup_append_setKey_other (k q : String) (v : RVal)
    (hne : (q == k) = false) :
    ∀ d : RDict, List.lookup q (d ++ [(k, v)]) = List.lookup q d := by
  intro d
  induction d with
  | nil => simp [List.lookup, hne]
  | cons kv rest ih =>
    by_cases hq : (q == kv.1) = true
    · rw [List.cons_append, List.lookup, hq, List.lookup, hq]
    · have hq' : (q == kv.1) = false := Bool.eq_false_iff.mpr hq
      rw [List.cons_append, List.lookup, hq', List.lookup, hq']
      exact ih

/-- Assigning one key leaves every other key's value unchanged. -/
theorem getKey_setKey_other (k q : String) (v : RVal)
    (hne : (q == k) = false) (d : RDict) :
    getKey (setKey k v d) q = getKey d q := by
  rw [getKey, getKey, setKey]
  split_ifs with hany
  · exact lookup_map_setKey_other k q v hne d
  · exact lookup_append_setKey_other k q v hne d

/-- The key list after an assignment: unchanged when the key exists,
appended otherwise. -/
theorem keys_setKey (k : String) (v : RVal) (d : RDict) :
    (setKey k v d).map Prod.fst =
      if (d.map Prod.fst).any (fun s => s == k) then d.map Prod.fst
      else d.map Prod.fst ++ [k] := by
  have hany : d.any (fun kv => kv.1 == k)
      = (d.map Prod.fst).any (fun s => s == k) := by
    induction d with
    | nil => rfl
    | cons kv rest ih => simp [ih]
  rw [setKey, hany]
  split_ifs with hc
  · rw [List.map_map]
    refine List.map_congr_left ?_
    intro kv _
    by_cases hk : (kv.1 == k) = true
    · simp [Function.comp, hk, eq_of_beq hk]
    · simp [Function.comp, hk]
  · simp

theorem analyze_failure_semantics (env : Env) (mp ip : String) (ct : ℚ)
    (m : List (String × ℚ)) (d : ℚ) (ha hs aw iw : ℚ) (sr : ℚ × ℚ) :
    ((env.modelPathExists = false ∨ env.imagePathExists = false ∨
      (∃ e, env.loadModel = Except.error e) ∨ env.imread = none ∨
      (∃ e, env.predict = Except.error e)) →
      ∃ dict, analyze_skin_image env mp ip ct m d ha hs aw iw sr
          = some dict ∧
        getKey dict "success" = some (RVal.bool false) ∧
        ∃ msg, getKey dict "message" = some (RVal.str msg) ∧
          (msg = "Model file not found: " ++ mp ∨
           msg = "Image file not found: " ++ ip ∨
           msg = "Could not read image file: " ++ ip ∨
           ∃ e, msg = errMessage e)) ∧
    (∀ dict, analyze_skin_image env mp ip ct m d ha hs aw iw sr
        = some dict →
      getKey dict "success" = some (RVal.bool true) →
      (∃ img, getKey dict "original_image_bgr"
        = some (RVal.image (some img))) ∧
      (∃ ov, getKey dict "heatmap_overlay_bgr"
        = some (RVal.image (some ov))) ∧
      getKey dict "message"
        = some (RVal.str "Analysis completed successfully.")) := by
  obtain ⟨mpe, ipe, lm, ir, pr, gF, cGB, aCM, aW⟩ := env
  constructor
  · intro hfail
    cases mpe with
    | false => exact ⟨_, rfl, rfl, _, rfl, Or.inl rfl⟩
    | true =>
      cases ipe with
      | false => exact ⟨_, rfl, rfl, _, rfl, Or.inr (Or.inl rfl)⟩
      | true =>
        cases lm with
        | error e =>
          exact ⟨_, rfl, rfl, _, rfl, Or.inr (Or.inr (Or.inr ⟨e, rfl⟩))⟩
        | ok mc =>
          cases ir with
          | none =>
            exact ⟨_, rfl, rfl, _, rfl, Or.inr (Or.inr (Or.inl rfl))⟩
          | some img =>
            cases pr with
            | error e2 =>
              exact ⟨_, rfl, rfl, _, rfl,
                Or.inr (Or.inr (Or.inr ⟨e2, rfl⟩))⟩
            | ok prs =>
              rcases hfail with h | h | ⟨e, he⟩ | h | ⟨e, he⟩
              · exact absurd h (by simp)
              · exact absurd h (by simp)
              · exact Except.noConfusion he
              · exact Option.noConfusion h
              · exact Except.noConfusion he
  · intro dict hdict hsucc
    cases mpe with
    | false =>
      rcases Option.some.inj hdict with rfl
      exact absurd hsucc (by simp [getKey, setKey, initResults])
    | true =>
      cases ipe with
      | false =>
        rcases Option.some.inj hdict with rfl
        exact absurd hsucc (by simp [getKey, setKey, initResults])
      | true =>
        cases lm with
        | error e =>
          rcases Option.some.inj hdict with rfl
          exact absurd hsucc (by simp [getKey, setKey, initResults])
        | ok mc =>
          cases ir with
          | none =>
            rcases Option.some.inj hdict with rfl
            exact absurd hsucc (by simp [getKey, setKey, initResults])
          | some img =>
            cases pr with
            | error e2 =>
              rcases Option.some.inj hdict with rfl
              exact absurd hsucc (by simp [getKey, setKey, initResults])
            | ok prs =>
              rcases Option.some.inj hdict with rfl
              obtain ⟨ov, hov⟩ := generate_overlay_isSome gF cGB aCM aW img
                prs m d "confidence" ha hs 0
              refine ⟨⟨img, ?_⟩, ⟨ov, ?_⟩, ?_⟩ <;>
                simp only [getKey_setKey_self, getKey_setKey_other,
                  String.reduceBEq, hov]

/-- Witness for `analyze_failure_semantics`: a missing model file yields a
failure dictionary with the documented message. -/
theorem analyze_failure_semantics_witness :
    ∃ dict, analyze_skin_image
        ⟨false, false, Except.ok [], none, Except.ok [], fun f _ => f,
         fun f _ => f, fun f => ⟨f.shape, f.data⟩, fun a _ _ _ => a⟩
        "best.pt" "final_test.jpg" (3 / 10) SEVERITY_SCORE_MAP
        DEFAULT_SEVERITY_SCORE (1 / 2) 40 AREA_WEIGHT INTENSITY_WEIGHT
        SCORE_RANGE = some dict ∧
      getKey dict "success" = some (RVal.bool false) ∧
      ∃ msg, getKey dict "message" = some (RVal.str msg) ∧
        (msg = "Model file not found: " ++ "best.pt" ∨
         msg = "Image file not found: " ++ "final_test.jpg" ∨
         msg = "Could not read image file: " ++ "final_test.jpg" ∨
         ∃ e, msg = errMessage e) :=
  (analyze_failure_semantics
    ⟨false, false, Except.ok [], none, Except.ok [], fun f _ => f,
     fun f _ => f, fun f => ⟨f.shape, f.data⟩, fun a _ _ _ => a⟩
    "best.pt" "final_test.jpg" (3 / 10) SEVERITY_SCORE_MAP
    DEFAULT_SEVERITY_SCORE (1 / 2) 40 AREA_WEIGHT INTENSITY_WEIGHT
    SCORE_RANGE).1 (Or.inl rfl)

/-- C10: for every environment and every configuration,
`analyze_skin_image` returns a dictionary (never `None`, contrary to its
own docstring's "Returns None if critical errors occur"), and that
dictionary carries exactly the ten documented keys, in order. -/
theorem analyze_always_full_dict (env : Env) (mp ip : String) (ct : ℚ)
    (m : List (String × ℚ)) (d : ℚ) (ha hs aw iw : ℚ) (sr : ℚ × ℚ) :
    ∃ dict, analyze_skin_image env mp ip ct m d ha hs aw iw sr
        = some dict ∧
      dict.map Prod.fst =
        ["success", "message", "severity_score", "percentage_area",
         "average_intensity", "lesion_count", "original_image_bgr",
         "heatmap_overlay_bgr", "detections", "model_classes"] := by
  obtain ⟨mpe, ipe, lm, ir, pr, gF, cGB, aCM, aW⟩ := env
  cases mpe <;> cases ipe <;> rcases lm with e | mc <;>
    rcases ir with _ | img <;> rcases pr with e2 | prs <;>
    exact ⟨_, rfl, by simp [keys_setKey, initResults]⟩

end SkinScore
